import Mathlib

/-!
Shallow embedding of the Gateway Process Supervisor and Command Runner of
`src/server.js` (openclaw-docker).

The JavaScript runs on a single-threaded cooperative event loop.  Each
`async` method is embedded as its synchronous segments (the code between
`await` points); a suspended continuation is a `Pending` task.  A run of the
system is a fold of atomic `step`s over an explicit schedule, so interleaved
`start()`/`stop()`/`restart()`/`ensure()` calls, timer continuations and
subprocess exit events can be replayed faithfully.
-/

namespace OpenClaw

/-! ## Command Runner (`OpenClawCLI.#spawn`, server.js lines 159-175) -/

/-- The structured result `{ success, exitCode, output }` that `#spawn`
resolves with. -/
structure CommandResult where
  success : Bool
  exitCode : Int
  output : String
deriving DecidableEq, Repr

/-- The first child-process event observed by `#spawn`'s promise: either the
`error` event (spawn failure, carrying the OS error message) or the `close`
event (carrying the exit code, which Node reports as `null` — here `none` —
when the child was terminated by a signal).  The promise resolves once, on
whichever event fires first. -/
inductive SpawnEvent
  | procError (msg : String)
  | procClose (code : Option Int)
deriving DecidableEq, Repr

/-- `OpenClawCLI.#spawn`'s resolution function (lines 167-173): the `error`
handler resolves `{ success: false, exitCode: 127, output: captured + "\n" +
err.message }`; the `close` handler resolves `{ success: exitCode === 0,
exitCode: exitCode ?? 0, output: captured }`.  Total: the promise always
resolves, never rejects. -/
def spawnResolve (captured : String) : SpawnEvent → CommandResult
  | .procError msg => { success := false, exitCode := 127, output := captured ++ "\n" ++ msg }
  | .procClose code =>
      { success := decide (code = some 0), exitCode := code.getD 0, output := captured }

/-! ## Health polling (`GatewayManager.#waitForHealth`, lines 268-278)

Modelled with a discrete clock: `fetchRes t` is the HTTP status of the poll
issued at time `t` (`none` = the fetch threw, e.g. connection refused).  A
fetch is idealized as instantaneous; each failed iteration then sleeps
300 ms. -/

/-- Line 273: `res.ok || res.status < 500` — since `res.ok` implies a status
below 500, a poll passes exactly when a response arrived with status < 500;
a thrown fetch (`none`) never passes. -/
def healthPass : Option Nat → Bool
  | some s => decide (s < 500)
  | none => false

/-- The polling loop of `#waitForHealth`: while `now < deadline`, poll; on a
passing poll return `true` at the current time, otherwise sleep 300 ms and
retry; once the deadline has been reached return `false`.  The result pairs
the boolean with the completion time. -/
def waitForHealth (fetchRes : Nat → Option Nat) (deadline now : Nat) : Bool × Nat :=
  if h : now < deadline then
    if healthPass (fetchRes now) then (true, now)
    else waitForHealth fetchRes deadline (now + 300)
  else (false, now)
termination_by deadline - now
decreasing_by omega

/-! ## Gateway Process Supervisor state (`GatewayManager`, lines 180-312) -/

/-- The four values of `this.#state`. -/
inductive GState
  | stopped
  | starting
  | running
  | stopping
deriving DecidableEq, Repr

/-- The three private fields of `GatewayManager`: `#process` (the managed
subprocess handle, identified by its pid), `#state`, and `#startPromise`
(the id of the in-flight `#doStart()` future). -/
structure GatewayManager where
  process : Option Nat
  state : GState
  startPromise : Option Nat
deriving DecidableEq, Repr

/-- Field initializers (lines 181-183): no process, state `stopped`, no
in-flight start future. -/
def GatewayManager.mk0 : GatewayManager := ⟨none, .stopped, none⟩

/-- `#cleanup()` (lines 298-301): clear the handle and set state `stopped`. -/
def GatewayManager.cleanup (gm : GatewayManager) : GatewayManager :=
  { gm with process := none, state := .stopped }

/-- `get isRunning()` (line 185): state is `running` and a handle exists. -/
def GatewayManager.isRunning (gm : GatewayManager) : Bool :=
  gm.state == .running && gm.process.isSome

/-- Signals sent via `ChildProcess.kill`. -/
inductive Sig
  | term
  | kill
deriving DecidableEq, Repr

/-- Observable events, recorded in order of occurrence: a subprocess spawn,
a signal sent to a pid, and an execution of `#cleanup()`. -/
inductive Event
  | spawn (pid : Nat)
  | signal (pid : Nat) (sig : Sig)
  | cleanupEv
deriving DecidableEq, Repr

/-- To whom an async operation's resolution is delivered: `drop` for
fire-and-forget invocations (the `setTimeout`-scheduled auto-restart, the
un-awaited `this.stop()` on the health-timeout path), `ret caller` for a
caller awaiting the operation, and `thenStart caller configured` for
`restart()`'s continuation, which runs `this.start()` once the awaited
`this.stop()` resolves and hands start's result to the caller. -/
inductive Owner
  | drop
  | ret (caller : Nat)
  | thenStart (caller : Nat) (configured : Bool)
deriving DecidableEq, Repr

/-- What an awaiting caller ultimately receives.  `result ok error` is a
`{ ok, error? }` object; `rawUnit` is a promise resolution with `undefined`
and `rawError` a promise rejection — the latter two occur when a caller was
handed the raw in-flight `#doStart()` future (line 191) rather than a
result object. -/
inductive Outcome
  | result (ok : Bool) (error : Option String)
  | rawUnit
  | rawError (msg : String)
deriving DecidableEq, Repr

/-- Suspended continuations of async methods (the code after an `await`),
tagged with the `setTimeout` delay where one was requested:
* `preflight`: `#doStart` suspended in the pre-flight `cli.exec` config
  calls (lines 210-220), before the subprocess spawn;
* `health`: `#doStart` suspended in `await this.#waitForHealth(60000)`
  (line 259) for subprocess `pid`;
* `stopGrace`: `stop()` suspended in the 500 ms sleep after sending SIGTERM
  (line 287), with `pid` the captured `proc`;
* `stopKillWait`: `stop()` suspended in the 200 ms sleep after sending
  SIGKILL (line 291);
* `autoRestart`: the `setTimeout(() => this.start()..., 5000)` scheduled by
  the exit handler (line 253). -/
inductive Pending
  | preflight (owner : Owner) (fut : Nat)
  | health (owner : Owner) (fut : Nat) (pid : Nat)
  | stopGrace (owner : Owner) (pid : Nat) (delayMs : Nat)
  | stopKillWait (owner : Owner) (pid : Nat) (delayMs : Nat)
  | autoRestart (delayMs : Nat)
deriving DecidableEq, Repr

/-- The whole event-loop state: the `GatewayManager` fields; `killedPids`,
the pids whose handle has `killed = true` (Node sets `ChildProcess.killed`
when a signal was successfully delivered via `kill()` — it does not mean
the process exited); `exited`, the pids whose `exit` or `error` event has
already fired (each fires at most once); `nextId`, a fresh-id counter for
futures and pids; the event `log`; the `pending` suspended continuations;
`waiters`, the callers awaiting a shared in-flight start future (owner,
future id); and `outcomes`, the results delivered to callers so far. -/
structure Sys where
  gm : GatewayManager
  killedPids : List Nat
  exited : List Nat
  nextId : Nat
  log : List Event
  pending : List Pending
  waiters : List (Owner × Nat)
  outcomes : List (Nat × Outcome)
deriving DecidableEq, Repr

/-- A fresh system: a just-constructed `GatewayManager`, nothing spawned,
nothing pending. -/
def Sys.mk0 : Sys := ⟨.mk0, [], [], 0, [], [], [], []⟩

/-- Deliver an outcome to an awaiting caller (`ret`); fire-and-forget owners
discard it.  (`thenStart` owners only ever await `stop()`, whose resolution
is handled by `resolveStopOwner`.) -/
def recordOutcome (o : Owner) (out : Outcome) (sys : Sys) : Sys :=
  match o with
  | .ret c => { sys with outcomes := sys.outcomes ++ [(c, out)] }
  | _ => sys

/-- The body of `start()` (lines 188-204) up to its first suspension, also
used for `ensure()`'s and `restart()`'s delegation and the auto-restart:
* not configured → resolve `{ ok: false, error: "OpenClaw not configured" }`
  (line 189), touching nothing else;
* state `running` → resolve `{ ok: true }` (line 190);
* state `starting` → `return this.#startPromise` (line 191): the caller is
  handed the raw in-flight future and becomes a waiter on it (if the field
  is `null`, the caller is resolved with that raw null/undefined value);
* otherwise (lines 193-194) → set state `starting`, install a fresh future
  id as `#startPromise`, and begin `#doStart()`, which suspends in its
  pre-flight `cli.exec` calls. -/
def doCallStart (owner : Owner) (configured : Bool) (sys : Sys) : Sys :=
  if configured = false then
    recordOutcome owner (.result false (some "OpenClaw not configured")) sys
  else if sys.gm.state = .running then
    recordOutcome owner (.result true none) sys
  else if sys.gm.state = .starting then
    match sys.gm.startPromise with
    | some f => { sys with waiters := sys.waiters ++ [(owner, f)] }
    | none => recordOutcome owner .rawUnit sys
  else
    { sys with
      gm := { sys.gm with state := .starting, startPromise := some sys.nextId },
      nextId := sys.nextId + 1,
      pending := sys.pending ++ [.preflight owner sys.nextId] }

/-- Resolution of `stop()`, whose value is always `{ ok: true }` (lines 281,
295).  A `thenStart` owner (`restart()`, line 305) immediately runs
`this.start()` and routes start's result to the original caller. -/
def resolveStopOwner (owner : Owner) (sys : Sys) : Sys :=
  match owner with
  | .drop => sys
  | .ret c => { sys with outcomes := sys.outcomes ++ [(c, .result true none)] }
  | .thenStart c configured => doCallStart (.ret c) configured sys

/-- The body of `stop()` (lines 280-287) up to its first suspension: with no
handle, resolve `{ ok: true }` immediately; otherwise set state `stopping`,
capture `proc = this.#process`, send SIGTERM (which, when delivered, sets
the handle's `killed` flag), and suspend for the 500 ms grace period. -/
def doCallStop (owner : Owner) (deliverTerm : Bool) (sys : Sys) : Sys :=
  match sys.gm.process with
  | none => resolveStopOwner owner sys
  | some p =>
    { sys with
      gm := { sys.gm with state := .stopping },
      killedPids := if deliverTerm then sys.killedPids ++ [p] else sys.killedPids,
      log := sys.log ++ [.signal p .term],
      pending := sys.pending ++ [.stopGrace owner p 500] }

/-- What the first caller's `try`/`catch` in `start()` (lines 196-203) turns
the `#doStart` resolution into: `{ ok: true }` on success, `{ ok: false,
error: err.message }` on rejection. -/
def startOutcomeOfRaw : Option String → Outcome
  | none => .result true none
  | some msg => .result false (some msg)

/-- What a waiter on the raw shared future receives: `undefined` on success,
the rejection itself on failure. -/
def rawOutcome : Option String → Outcome
  | none => .rawUnit
  | some msg => .rawError msg

/-- Resolution of the `#doStart()` future `fut` with `err` (`none` =
fulfilled): the owning caller's continuation runs its `try`/`catch` and the
`finally` clears `#startPromise` (line 202); every waiter that was handed
the raw future receives the raw resolution. -/
def resolveStart (owner : Owner) (fut : Nat) (err : Option String) (sys : Sys) : Sys :=
  let sys1 := recordOutcome owner (startOutcomeOfRaw err)
    { sys with gm := { sys.gm with startPromise := none } }
  { sys1 with
    waiters := sys1.waiters.filter (fun w => !(w.2 == fut)),
    outcomes := sys1.outcomes ++ ((sys1.waiters.filter (fun w => w.2 == fut)).filterMap
      (fun w => match w.1 with
        | .ret c => some (c, rawOutcome err)
        | _ => none)) }

/-- The `exit` listener registered in `#doStart` (lines 244-257):
`wasIntentional` is whether state is `stopping` at exit time; `#cleanup()`
runs unconditionally; on an unintentional exit a single auto-restart is
scheduled with `setTimeout(..., 5000)`, whose failure is only logged
(`.catch`), never retried by the handler itself. -/
def onExit (sys : Sys) : Sys :=
  let wasIntentional := sys.gm.state = .stopping
  let sys1 := { sys with gm := sys.gm.cleanup, log := sys.log ++ [.cleanupEv] }
  if wasIntentional then sys1
  else { sys1 with pending := sys1.pending ++ [.autoRestart 5000] }

/-- Run one suspended continuation.  The boolean parameters resolve the
environment's nondeterminism: `deliver` — whether a sent signal is
successfully delivered; `healthy` — the value `#waitForHealth` resolves
with; `configured` — `isConfigured()` at the time the auto-restart's
`this.start()` runs.
* `preflight`: the pre-flight config calls finished (their failure is
  caught and only logged, line 218); lines 222-237 spawn the subprocess
  with a fresh pid, assign `this.#process`, register the exit and error
  listeners, and suspend in the health poll;
* `health`: line 259 resumed.  Healthy: state `running` (line 265) and the
  future fulfils.  Not healthy: `this.stop()` is invoked but NOT awaited
  (line 261) — its synchronous prefix runs — and the future rejects with
  `Error("Gateway failed to become healthy")` (line 262);
* `stopGrace`: line 289 `if (!proc.killed)` — when no signal was delivered,
  send SIGKILL and sleep 200 ms; otherwise `#cleanup()` and resolve;
* `stopKillWait`: lines 294-295, `#cleanup()` and resolve;
* `autoRestart`: the delayed `this.start()` (line 253), fire-and-forget. -/
def runPending (t : Pending) (deliver healthy configured : Bool) (sys : Sys) : Sys :=
  match t with
  | .preflight owner fut =>
    { sys with
      gm := { sys.gm with process := some sys.nextId },
      nextId := sys.nextId + 1,
      log := sys.log ++ [.spawn sys.nextId],
      pending := sys.pending ++ [.health owner fut sys.nextId] }
  | .health owner fut _pid =>
    if healthy then
      resolveStart owner fut none { sys with gm := { sys.gm with state := .running } }
    else
      resolveStart owner fut (some "Gateway failed to become healthy")
        (doCallStop .drop deliver sys)
  | .stopGrace owner pid _d =>
    if pid ∈ sys.killedPids then
      resolveStopOwner owner { sys with gm := sys.gm.cleanup, log := sys.log ++ [.cleanupEv] }
    else
      { sys with
        killedPids := if deliver then sys.killedPids ++ [pid] else sys.killedPids,
        log := sys.log ++ [.signal pid .kill],
        pending := sys.pending ++ [.stopKillWait owner pid 200] }
  | .stopKillWait owner _pid _d =>
    resolveStopOwner owner { sys with gm := sys.gm.cleanup, log := sys.log ++ [.cleanupEv] }
  | .autoRestart _d => doCallStart .drop configured sys

/-- One atomic event-loop turn, chosen by the schedule:
* `callStart caller configured` — a caller invokes `start()`;
* `callStop caller deliverTerm` — a caller invokes `stop()`;
* `callRestart caller deliverTerm configured` — a caller invokes
  `restart()` (line 303-306): `await this.stop(); return this.start();`,
  encoded by giving the stop a `thenStart` owner;
* `callEnsure caller configured` — `ensure()` (lines 308-311): `{ ok: true }`
  if `isRunning`, else delegate to `start()`;
* `procExit pid` — the OS delivers the `exit` event for a spawned,
  not-yet-exited pid;
* `procSpawnError pid` — the `error` listener (lines 239-242) fires for a
  spawned, not-yet-exited pid: `#cleanup()` only, no restart scheduled;
* `runTask t deliver healthy configured` — a pending continuation resumes
  (it must actually be pending; it is removed as it runs). -/
inductive Choice
  | callStart (caller : Nat) (configured : Bool)
  | callStop (caller : Nat) (deliverTerm : Bool)
  | callRestart (caller : Nat) (deliverTerm : Bool) (configured : Bool)
  | callEnsure (caller : Nat) (configured : Bool)
  | procExit (pid : Nat)
  | procSpawnError (pid : Nat)
  | runTask (t : Pending) (deliver : Bool) (healthy : Bool) (configured : Bool)
deriving DecidableEq, Repr

/-- The step function of the event loop. -/
def step (sys : Sys) (c : Choice) : Sys :=
  match c with
  | .callStart caller configured => doCallStart (.ret caller) configured sys
  | .callStop caller deliverTerm => doCallStop (.ret caller) deliverTerm sys
  | .callRestart caller deliverTerm configured =>
      doCallStop (.thenStart caller configured) deliverTerm sys
  | .callEnsure caller configured =>
      if sys.gm.isRunning then recordOutcome (.ret caller) (.result true none) sys
      else doCallStart (.ret caller) configured sys
  | .procExit pid =>
      if Event.spawn pid ∈ sys.log ∧ pid ∉ sys.exited then
        onExit { sys with exited := sys.exited ++ [pid] }
      else sys
  | .procSpawnError pid =>
      if Event.spawn pid ∈ sys.log ∧ pid ∉ sys.exited then
        { sys with
          gm := sys.gm.cleanup,
          log := sys.log ++ [.cleanupEv],
          exited := sys.exited ++ [pid] }
      else sys
  | .runTask t deliver healthy configured =>
      if t ∈ sys.pending then
        runPending t deliver healthy configured { sys with pending := sys.pending.erase t }
      else sys

/-- A run of the event loop over a schedule. -/
def run (sys : Sys) (cs : List Choice) : Sys := cs.foldl step sys

/-- The number of subprocess spawns recorded in a log. -/
def spawnCount (log : List Event) : Nat :=
  log.countP (fun e => match e with | .spawn _ => true | _ => false)

/-! ## Concrete scenario runs used by the theorems below -/

/-- A sequence of `start()` invocations by the given callers. -/
def startCalls (callers : List Nat) (configured : Bool) (sys : Sys) : Sys :=
  run sys (callers.map (fun c => .callStart c configured))

/-- A configured instance after one fully successful `start()` by caller 1:
future 0 installed, subprocess pid 1 spawned, health check passed. -/
def sysRunning : Sys := run Sys.mk0
  [.callStart 1 true,
   .runTask (.preflight (.ret 1) 0) false false false,
   .runTask (.health (.ret 1) 0 1) false true false]

/-- Two overlapping `start()` calls (callers 1 and 2) on a fresh configured
instance; the in-flight attempt succeeds. -/
def sysStartOk : Sys := run Sys.mk0
  [.callStart 1 true, .callStart 2 true,
   .runTask (.preflight (.ret 1) 0) false false false,
   .runTask (.health (.ret 1) 0 1) false true false]

/-- Two overlapping `start()` calls (callers 3 and 4) on a fresh configured
instance; the in-flight attempt fails its health check. -/
def sysStartFail : Sys := run Sys.mk0
  [.callStart 3 true, .callStart 4 true,
   .runTask (.preflight (.ret 3) 0) false false false,
   .runTask (.health (.ret 3) 0 1) false false false]

/-- A single `start()` whose health check times out; the SIGTERM of the
cleanup `stop()` is delivered.  Observed at the instant `start()` resolves:
the un-awaited `stop()` is still suspended in its 500 ms grace sleep. -/
def sysHealthFail : Sys := run Sys.mk0
  [.callStart 1 true,
   .runTask (.preflight (.ret 1) 0) false false false,
   .runTask (.health (.ret 1) 0 1) true false false]

/-- `stop()` (caller 2) on the running instance: SIGTERM is delivered
(setting the handle's `killed` flag) but the subprocess never exits; the
grace-period continuation then runs. -/
def sysStopNoExit : Sys := run sysRunning
  [.callStop 2 true, .runTask (.stopGrace (.ret 2) 1 500) true false false]

/-- The stop/start overlap race: from the running instance, caller 2 issues
`stop()` (SIGTERM delivered, grace sleep pending); caller 3 then issues
`start()` while state is `stopping`, which begins a fresh start cycle whose
`#doStart` suspends in its pre-flight calls; the stop's grace continuation
then runs `#cleanup()` (state `stopped`); finally the new start's pre-flight
finishes and spawns subprocess pid 3. -/
def sysStoppedWithHandle : Sys := run Sys.mk0
  [.callStart 1 true,
   .runTask (.preflight (.ret 1) 0) false false false,
   .runTask (.health (.ret 1) 0 1) false true false,
   .callStop 2 true,
   .callStart 3 true,
   .runTask (.stopGrace (.ret 2) 1 500) false false false,
   .runTask (.preflight (.ret 3) 2) false false false]

/-- A running instance with one spawned, never-exited subprocess (pid 1) and
an auto-restart already scheduled. -/
def sysExitW : Sys :=
  ⟨⟨some 1, .running, none⟩, [], [], 2, [.spawn 1], [.autoRestart 5000], [], []⟩

/-- The canonical `restart()` schedule from a running instance whose
subprocess is `p` and whose fresh-id counter is `N`: the caller invokes
`restart()`; the subprocess exits during the stop's grace period (an
intentional exit: no auto-restart); the grace continuation resolves the
stop, which runs `start()`; the new start's pre-flight finishes and spawns
pid `N + 1`; the health check passes. -/
def restartSchedule (caller p N : Nat) : List Choice :=
  [.callRestart caller true true,
   .procExit p,
   .runTask (.stopGrace (.thenStart caller true) p 500) true false true,
   .runTask (.preflight (.ret caller) N) true true true,
   .runTask (.health (.ret caller) N (N + 1)) true true true]

/-- A running system with subprocess `p` (arbitrary other fields, nothing
pending) put through the canonical `restart()` schedule. -/
def restartRun (caller p : Nat) (spr : Option Nat) (kp ex : List Nat) (N : Nat)
    (lg : List Event) (oc : List (Nat × Outcome)) : Sys :=
  run ⟨⟨some p, .running, spr⟩, kp, ex, N, lg, [], [], oc⟩ (restartSchedule caller p N)

/-- The handle/state coupling asserted by the spec: whenever state is
`stopped` the managed subprocess handle is absent. -/
def HandleInv (sys : Sys) : Prop := sys.gm.state = .stopped → sys.gm.process = none

end OpenClaw

namespace OpenClaw

/-! ## Theorems -/

/-- C8: every Command Runner invocation resolves (the model is a total
function — neither a nonzero exit nor a spawn failure throws): a spawn
failure maps to `success = false` with sentinel exit code 127 and the OS
error message appended to the captured output; a `close` with exit code 0
yields `success = true` and any other numeric exit code yields
`success = false`. -/
theorem spawn_result_total (captured msg : String) (n : Int) :
    (spawnResolve captured (.procError msg)).success = false
  ∧ (spawnResolve captured (.procError msg)).exitCode = 127
  ∧ (spawnResolve captured (.procError msg)).output = captured ++ "\n" ++ msg
  ∧ ((spawnResolve captured (.procClose (some n))).success = true ↔ n = 0)
  ∧ (spawnResolve captured (.procClose (some 0))).success = true
  ∧ (spawnResolve captured (.procClose (some 1))).success = false := by
  refine ⟨rfl, rfl, rfl, ?_, rfl, rfl⟩
  simp [spawnResolve]

/-- C10: when the child terminates without a numeric exit code (the `close`
event reports `null`, e.g. killed by a signal) the result has
`success = false` yet `exitCode = 0` — an `exitCode` of 0 in a result does
not imply `success = true`. -/
theorem spawn_null_exit_code (captured : String) :
    (spawnResolve captured (.procClose none)).success = false
  ∧ (spawnResolve captured (.procClose none)).exitCode = 0 := ⟨rfl, rfl⟩

/-- A single unconfigured `start()` resolves the "not configured" failure
and changes nothing else. -/
theorem callStart_unconfigured (sys : Sys) (c : Nat) :
    step sys (.callStart c false) =
      { sys with outcomes :=
          sys.outcomes ++ [(c, .result false (some "OpenClaw not configured"))] } := by
  simp [step, doCallStart, recordOutcome]

/-- C2: every `start()` on an unconfigured instance — however many times it
is called — returns `{ ok: false, error: "OpenClaw not configured" }`, spawns
no subprocess (the log is unchanged), suspends nothing (no side effects, no
state transition), and leaves state `stopped`. -/
theorem start_unconfigured_pure (sys : Sys) (callers : List Nat)
    (h : sys.gm.state = .stopped) :
    (startCalls callers false sys).gm = sys.gm
  ∧ (startCalls callers false sys).gm.state = .stopped
  ∧ (startCalls callers false sys).log = sys.log
  ∧ (startCalls callers false sys).pending = sys.pending
  ∧ (startCalls callers false sys).outcomes = sys.outcomes ++
      callers.map (fun c => (c, .result false (some "OpenClaw not configured"))) := by
  induction callers generalizing sys with
  | nil => exact ⟨rfl, h, rfl, rfl, by simp [startCalls, run]⟩
  | cons a as ih =>
    have hstep : startCalls (a :: as) false sys =
        startCalls as false (step sys (.callStart a false)) := by
      simp [startCalls, run]
    rw [hstep, callStart_unconfigured sys a]
    obtain ⟨h1, h2, h3, h4, h5⟩ := ih
      { sys with outcomes :=
          sys.outcomes ++ [(a, .result false (some "OpenClaw not configured"))] } h
    exact ⟨h1, h2, h3, h4, by rw [h5]; simp⟩

/-- Witness for C2: two unconfigured `start()` calls on a fresh instance. -/
theorem start_unconfigured_pure_witness :
    (startCalls [1, 2] false Sys.mk0).gm = Sys.mk0.gm
  ∧ (startCalls [1, 2] false Sys.mk0).outcomes =
      [(1, .result false (some "OpenClaw not configured")),
       (2, .result false (some "OpenClaw not configured"))] := by
  have h := start_unconfigured_pure Sys.mk0 [1, 2] rfl
  exact ⟨h.1, by simpa using h.2.2.2.2⟩

/-- C5: `stop()` with no subprocess handle resolves `{ ok: true }`
immediately and does nothing else: the whole system is unchanged except for
the delivered result — no signal is sent (log unchanged), nothing is
suspended (pending unchanged), and no state transition happens (the
`GatewayManager` fields are unchanged). -/
theorem stop_idempotent_no_handle (sys : Sys) (caller : Nat) (d : Bool)
    (h : sys.gm.process = none) :
    step sys (.callStop caller d) =
      { sys with outcomes := sys.outcomes ++ [(caller, .result true none)] } := by
  simp [step, doCallStop, h, resolveStopOwner]

/-- Witness for C5: `stop()` on a fresh (stopped, handle-less) instance. -/
theorem stop_idempotent_no_handle_witness :
    step Sys.mk0 (.callStop 5 true) =
      { Sys.mk0 with outcomes := [(5, .result true none)] } :=
  stop_idempotent_no_handle Sys.mk0 5 true rfl

/-- C7: the exit listener's policy.  (i) An exit observed while state is not
`stopping` runs `#cleanup()` and schedules exactly one auto-restart task,
with the fixed 5000 ms backoff; (ii) an exit observed while state is
`stopping` runs `#cleanup()` and schedules nothing; (iii) when the scheduled
auto-restart runs and its `start()` fails (here: not configured), the
failure is not retried — no new task is scheduled, nothing changes beyond
the consumed task, and no caller is waiting on the result. -/
theorem unexpected_exit_restart_policy (sys : Sys) (pid : Nat)
    (hsp : Event.spawn pid ∈ sys.log) (hex : pid ∉ sys.exited) :
    (sys.gm.state ≠ .stopping →
      step sys (.procExit pid) =
        { sys with gm := sys.gm.cleanup, exited := sys.exited ++ [pid],
                   log := sys.log ++ [.cleanupEv],
                   pending := sys.pending ++ [.autoRestart 5000] })
  ∧ (sys.gm.state = .stopping →
      step sys (.procExit pid) =
        { sys with gm := sys.gm.cleanup, exited := sys.exited ++ [pid],
                   log := sys.log ++ [.cleanupEv] })
  ∧ (∀ dl hl, Pending.autoRestart 5000 ∈ sys.pending →
      step sys (.runTask (.autoRestart 5000) dl hl false) =
        { sys with pending := sys.pending.erase (.autoRestart 5000) }) := by
  refine ⟨fun hne => ?_, fun heq => ?_, fun dl hl hmem => ?_⟩
  · simp only [step, if_pos (And.intro hsp hex), onExit]
    rw [if_neg (by simpa using hne)]
  · simp only [step, if_pos (And.intro hsp hex), onExit]
    rw [if_pos (by simpa using heq)]
  · simp [step, hmem, runPending, doCallStart, recordOutcome]

/-- C1: two overlapping `start()` calls on a fresh configured instance.
The second caller is handed the very future installed by the first
(`#startPromise = some 0`, the waiter awaits future 0) and only one
subprocess is spawned for the cycle — but the second caller's received
value is the raw `#doStart()` resolution (`undefined` on success, the
rejection on failure), never an `{ ok, error? }` result object, because
line 191 returns `this.#startPromise` itself instead of a wrapped result. -/
theorem concurrent_start_raw_future :
    (run Sys.mk0 [.callStart 1 true]).gm.startPromise = some 0
  ∧ (run Sys.mk0 [.callStart 1 true, .callStart 2 true]).waiters = [(.ret 2, 0)]
  ∧ spawnCount sysStartOk.log = 1
  ∧ sysStartOk.outcomes = [(1, .result true none), (2, .rawUnit)]
  ∧ spawnCount sysStartFail.log = 1
  ∧ sysStartFail.outcomes =
      [(3, .result false (some "Gateway failed to become healthy")),
       (4, .rawError "Gateway failed to become healthy")]
  ∧ (∀ b e, Outcome.rawUnit ≠ Outcome.result b e)
  ∧ (∀ b e, Outcome.rawError "Gateway failed to become healthy" ≠ Outcome.result b e) := by
  refine ⟨rfl, rfl, rfl, rfl, rfl, rfl, fun b e h => ?_, fun b e h => ?_⟩
  · exact Outcome.noConfusion h
  · exact Outcome.noConfusion h

/-- C4: `stop()` on a running instance whose subprocess successfully
receives SIGTERM but never exits: because line 289 tests
`ChildProcess.killed` — which Node sets when a signal was successfully
delivered, not when the process exited — the SIGKILL escalation branch is
skipped even though the process has not exited (pid 1 is not in `exited`
and no exit event occurred), yet `#cleanup()` still runs and the caller
still gets `{ ok: true }` with state `stopped`. -/
theorem stop_skips_sigkill_when_sigterm_delivered :
    sysStopNoExit.gm = ⟨none, .stopped, none⟩
  ∧ (2, Outcome.result true none) ∈ sysStopNoExit.outcomes
  ∧ Event.signal 1 .term ∈ sysStopNoExit.log
  ∧ (1 : Nat) ∉ sysStopNoExit.exited
  ∧ Event.signal 1 .kill ∉ sysStopNoExit.log := by decide

/-- C3 counterexample: a `start()` whose health check never passes resolves
`{ ok: false, error: "Gateway failed to become healthy" }` — but at that
instant state is `stopping`, not `stopped`: line 261 invokes `this.stop()`
without awaiting it, so only stop's synchronous prefix (state :=
`stopping`, SIGTERM) has run when the rejection reaches the caller, and the
500 ms grace continuation that will run `#cleanup()` is still pending. -/
theorem start_health_timeout_not_stopped :
    sysHealthFail.outcomes =
      [(1, .result false (some "Gateway failed to become healthy"))]
  ∧ sysHealthFail.gm.state = .stopping
  ∧ sysHealthFail.gm.state ≠ .stopped := by decide

/-- Timing of the health-poll loop when no poll ever passes: the loop
resolves `false` at a time past the deadline but within one poll interval
(300 ms) of it. -/
theorem waitForHealth_never_healthy (f : Nat → Option Nat)
    (hf : ∀ t, healthPass (f t) = false) :
    ∀ k deadline now, deadline - now ≤ k → now ≤ deadline →
      (waitForHealth f deadline now).1 = false
    ∧ deadline ≤ (waitForHealth f deadline now).2
    ∧ (waitForHealth f deadline now).2 < deadline + 300 := by
  intro k
  induction k with
  | zero =>
    intro deadline now hk hle
    have hdn : ¬ now < deadline := by omega
    rw [waitForHealth, dif_neg hdn]
    exact ⟨rfl, by omega, by omega⟩
  | succ k ih =>
    intro deadline now hk hle
    rcases Nat.lt_or_ge now deadline with hlt | hge
    · rw [waitForHealth, dif_pos hlt, hf now]
      simp only [Bool.false_eq_true, if_false]
      rcases le_or_lt (now + 300) deadline with h2 | h2
      · exact ih deadline (now + 300) (by omega) h2
      · rw [waitForHealth, dif_neg (by omega)]
        exact ⟨rfl, by omega, by omega⟩
    · have hdn : ¬ now < deadline := by omega
      rw [waitForHealth, dif_neg hdn]
      exact ⟨rfl, by omega, by omega⟩

/-- C3 amended: if the liveness endpoint never returns a status below 500,
the 60 s / 300 ms poll loop resolves `false` within `timeout +
poll_interval` bounds and `start()` resolves `{ ok: false }`; the spawned
subprocess is force-stopped as cleanup by an un-awaited `stop()` — SIGTERM
has been sent and the grace continuation is pending — so state is
`stopping` (not yet `stopped`) when `start()` resolves, and becomes
`stopped` with the handle cleared once that asynchronous stop completes. -/
theorem start_health_timeout_amended (f : Nat → Option Nat) (t0 : Nat)
    (hf : ∀ t, healthPass (f t) = false) :
    ((waitForHealth f (t0 + 60000) t0).1 = false
    ∧ t0 + 60000 ≤ (waitForHealth f (t0 + 60000) t0).2
    ∧ (waitForHealth f (t0 + 60000) t0).2 < t0 + 60000 + 300)
  ∧ sysHealthFail.outcomes =
      [(1, .result false (some "Gateway failed to become healthy"))]
  ∧ sysHealthFail.gm.state = .stopping
  ∧ Event.signal 1 .term ∈ sysHealthFail.log
  ∧ sysHealthFail.pending = [.stopGrace .drop 1 500]
  ∧ (run sysHealthFail [.runTask (.stopGrace .drop 1 500) false false false]).gm
      = ⟨none, .stopped, none⟩ := by
  refine ⟨waitForHealth_never_healthy f hf 60000 (t0 + 60000) t0 (by omega) (by omega),
    ?_, ?_, ?_, ?_, ?_⟩ <;> decide

/-- Witness for C3 amended: a liveness endpoint that always answers 503. -/
theorem start_health_timeout_amended_witness :
    ((waitForHealth (fun _ => some 503) (0 + 60000) 0).1 = false
    ∧ 0 + 60000 ≤ (waitForHealth (fun _ => some 503) (0 + 60000) 0).2
    ∧ (waitForHealth (fun _ => some 503) (0 + 60000) 0).2 < 0 + 60000 + 300)
  ∧ sysHealthFail.outcomes =
      [(1, .result false (some "Gateway failed to become healthy"))]
  ∧ sysHealthFail.gm.state = .stopping
  ∧ Event.signal 1 .term ∈ sysHealthFail.log
  ∧ sysHealthFail.pending = [.stopGrace .drop 1 500]
  ∧ (run sysHealthFail [.runTask (.stopGrace .drop 1 500) false false false]).gm
      = ⟨none, .stopped, none⟩ :=
  start_health_timeout_amended (fun _ => some 503) 0 (fun _ => rfl)

/-- Witness for C7: an unexpected exit on a running instance with an
auto-restart already pending, and the failing (unconfigured) auto-restart. -/
theorem unexpected_exit_restart_policy_witness :
    step sysExitW (.procExit 1) =
      { sysExitW with gm := sysExitW.gm.cleanup, exited := [1],
                      log := sysExitW.log ++ [.cleanupEv],
                      pending := [.autoRestart 5000, .autoRestart 5000] }
  ∧ step sysExitW (.runTask (.autoRestart 5000) false false false) =
      { sysExitW with pending := [] } := by
  have h := unexpected_exit_restart_policy sysExitW 1 (by decide) (by decide)
  exact ⟨h.1 (by decide), (h.2.2 false false (by decide)).trans (by decide)⟩

/-- C9 counterexample: (i) the handle is not created on the transition into
`starting` — right after `start()` installs state `starting` the handle is
still absent (it is only assigned after the pre-flight `await`s); and
(ii) "whenever state is `stopped` the handle is absent" is violated: in the
stop/start overlap race a `stop()` completes its `#cleanup()` during the new
start's pre-flight phase, after which the new spawn installs a handle while
state is `stopped`. -/
theorem handle_exists_while_stopped :
    (run Sys.mk0 [.callStart 1 true]).gm.state = .starting
  ∧ (run Sys.mk0 [.callStart 1 true]).gm.process = none
  ∧ sysStoppedWithHandle.gm.state = .stopped
  ∧ sysStoppedWithHandle.gm.process = some 3 := by decide

/-- `recordOutcome` never touches the `GatewayManager` fields. -/
theorem recordOutcome_gm (o : Owner) (out : Outcome) (sys : Sys) :
    (recordOutcome o out sys).gm = sys.gm := by
  cases o <;> rfl

/-- `start()`'s first segment never assigns the handle; it either leaves
state alone or moves it to `starting`. -/
theorem doCallStart_gm (o : Owner) (cfg : Bool) (sys : Sys) :
    (doCallStart o cfg sys).gm.process = sys.gm.process
  ∧ ((doCallStart o cfg sys).gm.state = sys.gm.state
     ∨ (doCallStart o cfg sys).gm.state = .starting) := by
  unfold doCallStart
  split_ifs with h1 h2 h3
  · rw [recordOutcome_gm]; exact ⟨rfl, .inl rfl⟩
  · rw [recordOutcome_gm]; exact ⟨rfl, .inl rfl⟩
  · cases h : sys.gm.startPromise with
    | some f => simp [h]
    | none => simp [h, recordOutcome_gm]
  · exact ⟨rfl, .inr rfl⟩

/-- Resolving `stop()` never assigns the handle; state is untouched unless
the `restart()` continuation begins a new start. -/
theorem resolveStopOwner_gm (o : Owner) (sys : Sys) :
    (resolveStopOwner o sys).gm.process = sys.gm.process
  ∧ ((resolveStopOwner o sys).gm.state = sys.gm.state
     ∨ (resolveStopOwner o sys).gm.state = .starting) := by
  cases o with
  | drop => exact ⟨rfl, .inl rfl⟩
  | ret c => exact ⟨rfl, .inl rfl⟩
  | thenStart c cfg => exact doCallStart_gm _ _ _

/-- Resolving the `#doStart` future only clears `#startPromise`: handle and
state are untouched. -/
theorem resolveStart_gm (o : Owner) (fut : Nat) (err : Option String) (sys : Sys) :
    (resolveStart o fut err sys).gm.process = sys.gm.process
  ∧ (resolveStart o fut err sys).gm.state = sys.gm.state := by
  unfold resolveStart
  rw [recordOutcome_gm]
  exact ⟨rfl, rfl⟩

/-- `stop()`'s first segment never assigns the handle; state moves to
`stopping` (live handle) or stays / moves to `starting` (immediate
resolution, possibly chaining into `restart()`'s start). -/
theorem doCallStop_gm (o : Owner) (d : Bool) (sys : Sys) :
    (doCallStop o d sys).gm.process = sys.gm.process
  ∧ ((doCallStop o d sys).gm.state = sys.gm.state
     ∨ (doCallStop o d sys).gm.state = .starting
     ∨ (doCallStop o d sys).gm.state = .stopping) := by
  cases h : sys.gm.process with
  | none =>
    have he : doCallStop o d sys = resolveStopOwner o sys := by
      unfold doCallStop; rw [h]
    rw [he]
    obtain ⟨h1, h2⟩ := resolveStopOwner_gm o sys
    exact ⟨h1.trans h, h2.elim .inl (fun hx => .inr (.inl hx))⟩
  | some p =>
    have he : doCallStop o d sys = { sys with
        gm := { sys.gm with state := .stopping },
        killedPids := if d = true then sys.killedPids ++ [p] else sys.killedPids,
        log := sys.log ++ [.signal p .term],
        pending := sys.pending ++ [.stopGrace o p 500] } := by
      unfold doCallStop; rw [h]
    rw [he]
    exact ⟨h, .inr (.inr rfl)⟩

/-- Resuming the health poll never assigns the handle; state becomes
`running` (healthy), or — via the un-awaited `stop()` — stays, moves to
`stopping`, or (degenerate resolutions) `starting`. -/
theorem runPending_health_gm (ow : Owner) (fut pid : Nat) (dl hl cf : Bool) (s : Sys) :
    (runPending (.health ow fut pid) dl hl cf s).gm.process = s.gm.process
  ∧ ((runPending (.health ow fut pid) dl hl cf s).gm.state = s.gm.state
     ∨ (runPending (.health ow fut pid) dl hl cf s).gm.state = .running
     ∨ (runPending (.health ow fut pid) dl hl cf s).gm.state = .starting
     ∨ (runPending (.health ow fut pid) dl hl cf s).gm.state = .stopping) := by
  cases hl with
  | true =>
    obtain ⟨h1, h2⟩ := resolveStart_gm ow fut none
      { s with gm := { s.gm with state := .running } }
    exact ⟨h1.trans rfl, .inr (.inl (h2.trans rfl))⟩
  | false =>
    obtain ⟨h1, h2⟩ := resolveStart_gm ow fut
      (some "Gateway failed to become healthy") (doCallStop .drop dl s)
    obtain ⟨h3, h4⟩ := doCallStop_gm .drop dl s
    refine ⟨h1.trans h3, ?_⟩
    rcases h4 with h | h | h
    · exact .inl (h2.trans h)
    · exact .inr (.inr (.inl (h2.trans h)))
    · exact .inr (.inr (.inr (h2.trans h)))

/-- Resuming the stop grace period either ends in a `#cleanup()` (handle
cleared) or only sends SIGKILL, leaving the `GatewayManager` untouched. -/
theorem runPending_stopGrace_gm (ow : Owner) (pid d : Nat) (dl hl cf : Bool) (s : Sys) :
    (runPending (.stopGrace ow pid d) dl hl cf s).gm.process = none
  ∨ (runPending (.stopGrace ow pid d) dl hl cf s).gm = s.gm := by
  have he : runPending (.stopGrace ow pid d) dl hl cf s =
      if pid ∈ s.killedPids then
        resolveStopOwner ow { s with gm := s.gm.cleanup, log := s.log ++ [.cleanupEv] }
      else
        { s with
          killedPids := if dl = true then s.killedPids ++ [pid] else s.killedPids,
          log := s.log ++ [.signal pid .kill],
          pending := s.pending ++ [.stopKillWait ow pid 200] } := rfl
  rw [he]
  split_ifs with hk hd
  · exact .inl ((resolveStopOwner_gm _ _).1.trans rfl)
  · exact .inr rfl
  · exact .inr rfl

/-- Resuming the post-SIGKILL wait always ends in a `#cleanup()`. -/
theorem runPending_stopKillWait_gm (ow : Owner) (pid d : Nat) (dl hl cf : Bool) (s : Sys) :
    (runPending (.stopKillWait ow pid d) dl hl cf s).gm.process = none :=
  (resolveStopOwner_gm ow
    { s with gm := s.gm.cleanup, log := s.log ++ [.cleanupEv] }).1.trans rfl

/-- Classification of every atomic step's effect on the `GatewayManager`
fields: either it ends with the handle cleared (a `#cleanup()` ran last),
or it preserves the handle and does not newly reach `stopped`, or it is the
subprocess-spawn step of an in-flight start, which installs the handle and
leaves state untouched. -/
theorem step_gm_classification (sys : Sys) (c : Choice) :
    (step sys c).gm.process = none
  ∨ ((step sys c).gm.process = sys.gm.process
      ∧ ((step sys c).gm.state = sys.gm.state ∨ (step sys c).gm.state ≠ .stopped))
  ∨ ((step sys c).gm.state = sys.gm.state
      ∧ ∃ ow fut dl hl cf, c = .runTask (.preflight ow fut) dl hl cf) := by
  have hne : ∀ g : GState, g = .starting → g ≠ .stopped :=
    fun g h hc => GState.noConfusion (h.symm.trans hc)
  have hne2 : ∀ g : GState, g = .stopping → g ≠ .stopped :=
    fun g h hc => GState.noConfusion (h.symm.trans hc)
  have hne3 : ∀ g : GState, g = .running → g ≠ .stopped :=
    fun g h hc => GState.noConfusion (h.symm.trans hc)
  cases c with
  | callStart caller cfg =>
    simp only [step]
    obtain ⟨h1, h2⟩ := doCallStart_gm (.ret caller) cfg sys
    exact .inr (.inl ⟨h1, h2.elim .inl (fun h => .inr (hne _ h))⟩)
  | callStop caller d =>
    simp only [step]
    obtain ⟨h1, h2⟩ := doCallStop_gm (.ret caller) d sys
    refine .inr (.inl ⟨h1, ?_⟩)
    rcases h2 with h | h | h
    · exact .inl h
    · exact .inr (hne _ h)
    · exact .inr (hne2 _ h)
  | callRestart caller d cfg =>
    simp only [step]
    obtain ⟨h1, h2⟩ := doCallStop_gm (.thenStart caller cfg) d sys
    refine .inr (.inl ⟨h1, ?_⟩)
    rcases h2 with h | h | h
    · exact .inl h
    · exact .inr (hne _ h)
    · exact .inr (hne2 _ h)
  | callEnsure caller cfg =>
    simp only [step]
    split_ifs with h
    · refine .inr (.inl ⟨?_, .inl ?_⟩) <;> rw [recordOutcome_gm]
    · obtain ⟨h1, h2⟩ := doCallStart_gm (.ret caller) cfg sys
      exact .inr (.inl ⟨h1, h2.elim .inl (fun hx => .inr (hne _ hx))⟩)
  | procExit pid =>
    simp only [step]
    split_ifs with h
    · refine .inl ?_
      simp only [onExit]
      split_ifs <;> rfl
    · exact .inr (.inl ⟨rfl, .inl rfl⟩)
  | procSpawnError pid =>
    simp only [step]
    split_ifs with h
    · exact .inl rfl
    · exact .inr (.inl ⟨rfl, .inl rfl⟩)
  | runTask t dl hl cf =>
    simp only [step]
    split_ifs with hmem
    · cases t with
      | preflight ow fut =>
        exact .inr (.inr ⟨rfl, ow, fut, dl, hl, cf, rfl⟩)
      | health ow fut pid =>
        obtain ⟨h1, h2⟩ := runPending_health_gm ow fut pid dl hl cf
          { sys with pending := sys.pending.erase (Pending.health ow fut pid) }
        refine .inr (.inl ⟨h1.trans rfl, ?_⟩)
        rcases h2 with h | h | h | h
        · exact .inl (h.trans rfl)
        · exact .inr (hne3 _ h)
        · exact .inr (hne _ h)
        · exact .inr (hne2 _ h)
      | stopGrace ow pid d =>
        rcases runPending_stopGrace_gm ow pid d dl hl cf
          { sys with pending := sys.pending.erase (Pending.stopGrace ow pid d) } with h | h
        · exact .inl h
        · exact .inr (.inl ⟨(congrArg GatewayManager.process h).trans rfl,
            .inl ((congrArg GatewayManager.state h).trans rfl)⟩)
      | stopKillWait ow pid d =>
        exact .inl (runPending_stopKillWait_gm ow pid d dl hl cf
          { sys with pending := sys.pending.erase (Pending.stopKillWait ow pid d) })
      | autoRestart d =>
        obtain ⟨h1, h2⟩ := doCallStart_gm .drop cf
          { sys with pending := sys.pending.erase (Pending.autoRestart d) }
        exact .inr (.inl ⟨h1.trans rfl, h2.elim (fun hx => .inl (hx.trans rfl))
          (fun hx => .inr (hne _ hx))⟩)
    · exact .inr (.inl ⟨rfl, .inl rfl⟩)

/-- C9 amended: the handle is an at-most-one reference (a single optional
field); every step that transitions state into `stopped` also clears the
handle (`#cleanup()` is the only way in); and every step preserves
"state `stopped` implies handle absent" — except the subprocess-spawn step
of an in-flight start, which preserves it only when state is still
`starting` at spawn time.  (When an overlapping `stop()` completed during
the start's pre-flight phase, state is `stopped` at spawn time and the
handle is installed inside that window, as the counterexample shows; the
handle is created mid-`starting`, after the pre-flight calls, not on the
transition into `starting`.) -/
theorem handle_invariant_amended (sys : Sys) (c : Choice) :
    (sys.gm.state ≠ .stopped → (step sys c).gm.state = .stopped →
       (step sys c).gm.process = none)
  ∧ (HandleInv sys →
      (∀ ow fut dl hl cf, c = .runTask (.preflight ow fut) dl hl cf →
         sys.gm.state = .starting) →
      HandleInv (step sys c)) := by
  rcases step_gm_classification sys c with h | ⟨hp, hs⟩ | ⟨hs, ow, fut, dl, hl, cf, rfl⟩
  · exact ⟨fun _ _ => h, fun _ _ _ => h⟩
  · constructor
    · intro hne hstopped
      rcases hs with h | h
      · exact absurd (h ▸ hstopped) hne
      · exact absurd hstopped h
    · intro hinv _ hstopped
      rcases hs with h | h
      · rw [hp]; exact hinv (h ▸ hstopped)
      · exact absurd hstopped h
  · constructor
    · intro hne hstopped
      exact absurd (hs ▸ hstopped) hne
    · intro hinv hexc hstopped
      have hstart := hexc ow fut dl hl cf rfl
      rw [hs, hstart] at hstopped
      exact absurd hstopped (fun hc => GState.noConfusion hc)

/-- An exit event for a spawned, not-yet-exited pid runs the exit
listener. -/
theorem step_procExit_mem (sys : Sys) (pid : Nat)
    (h1 : Event.spawn pid ∈ sys.log) (h2 : pid ∉ sys.exited) :
    step sys (.procExit pid) = onExit { sys with exited := sys.exited ++ [pid] } := by
  simp only [step]
  rw [if_pos (And.intro h1 h2)]

/-- Running the single pending continuation consumes it. -/
theorem step_runTask_singleton (sys : Sys) (t : Pending) (dl hl cf : Bool)
    (h : sys.pending = [t]) :
    step sys (.runTask t dl hl cf) =
      runPending t dl hl cf { sys with pending := [] } := by
  simp only [step]
  rw [h]
  simp [List.erase_cons_head]

/-- The stop-grace continuation when the signal was delivered: `#cleanup()`
and resolution, no SIGKILL. -/
theorem runPending_stopGrace_killed (ow : Owner) (pid d : Nat) (dl hl cf : Bool)
    (s : Sys) (hk : pid ∈ s.killedPids) :
    runPending (.stopGrace ow pid d) dl hl cf s =
      resolveStopOwner ow { s with gm := s.gm.cleanup, log := s.log ++ [.cleanupEv] } := by
  have he : runPending (.stopGrace ow pid d) dl hl cf s =
      if pid ∈ s.killedPids then
        resolveStopOwner ow { s with gm := s.gm.cleanup, log := s.log ++ [.cleanupEv] }
      else
        { s with
          killedPids := if dl = true then s.killedPids ++ [pid] else s.killedPids,
          log := s.log ++ [.signal pid .kill],
          pending := s.pending ++ [.stopKillWait ow pid 200] } := rfl
  rw [he, if_pos hk]

/-- C6: `restart()` is the sequential composition `await stop(); return
start()` — its first atomic turn is exactly `stop()`'s first segment, with
the continuation that runs `start()` upon stop's resolution (final
conjunct) — and on the canonical schedule from a running instance (stop
tears the old subprocess down; the exit during the grace period is
intentional, so no auto-restart; the chained start spawns afresh and passes
its health check) `restart()` resolves `{ ok: true }` with state `running`,
exactly one live handle (the fresh pid `N + 1`, distinct from the old `p`),
nothing pending, and a log showing the old subprocess's teardown
(`#cleanup()` events) strictly before the new spawn. -/
theorem restart_stop_then_start (caller p : Nat) (spr : Option Nat)
    (kp ex : List Nat) (N : Nat) (lg : List Event) (oc : List (Nat × Outcome))
    (hspawn : Event.spawn p ∈ lg) (hex : p ∉ ex) (hfresh : p < N) :
    (restartRun caller p spr kp ex N lg oc).gm = ⟨some (N + 1), .running, none⟩
  ∧ (restartRun caller p spr kp ex N lg oc).pending = []
  ∧ N + 1 ≠ p
  ∧ (restartRun caller p spr kp ex N lg oc).outcomes = oc ++ [(caller, .result true none)]
  ∧ (restartRun caller p spr kp ex N lg oc).log =
      lg ++ [.signal p .term, .cleanupEv, .cleanupEv, .spawn (N + 1)]
  ∧ (∀ (sys2 : Sys) (c2 : Nat) (d2 cfg2 : Bool),
      step sys2 (.callRestart c2 d2 cfg2) = doCallStop (.thenStart c2 cfg2) d2 sys2) := by
  have e1 : step (⟨⟨some p, .running, spr⟩, kp, ex, N, lg, [], [], oc⟩ : Sys)
      (.callRestart caller true true) =
      ⟨⟨some p, .stopping, spr⟩, kp ++ [p], ex, N, lg ++ [.signal p .term],
       [.stopGrace (.thenStart caller true) p 500], [], oc⟩ := rfl
  have e2 : step (⟨⟨some p, .stopping, spr⟩, kp ++ [p], ex, N, lg ++ [.signal p .term],
       [.stopGrace (.thenStart caller true) p 500], [], oc⟩ : Sys) (.procExit p) =
      ⟨⟨none, .stopped, spr⟩, kp ++ [p], ex ++ [p], N,
       lg ++ [.signal p .term] ++ [.cleanupEv],
       [.stopGrace (.thenStart caller true) p 500], [], oc⟩ := by
    rw [step_procExit_mem _ _ (List.mem_append_left _ hspawn) hex]
    rfl
  have e3 : step (⟨⟨none, .stopped, spr⟩, kp ++ [p], ex ++ [p], N,
       lg ++ [.signal p .term] ++ [.cleanupEv],
       [.stopGrace (.thenStart caller true) p 500], [], oc⟩ : Sys)
      (.runTask (.stopGrace (.thenStart caller true) p 500) true false true) =
      ⟨⟨none, .starting, some N⟩, kp ++ [p], ex ++ [p], N + 1,
       lg ++ [.signal p .term] ++ [.cleanupEv] ++ [.cleanupEv],
       [.preflight (.ret caller) N], [], oc⟩ := by
    rw [step_runTask_singleton _ _ _ _ _ rfl,
      runPending_stopGrace_killed _ _ _ _ _ _ _
        (List.mem_append_right _ (List.mem_singleton_self p))]
    rfl
  have e4 : step (⟨⟨none, .starting, some N⟩, kp ++ [p], ex ++ [p], N + 1,
       lg ++ [.signal p .term] ++ [.cleanupEv] ++ [.cleanupEv],
       [.preflight (.ret caller) N], [], oc⟩ : Sys)
      (.runTask (.preflight (.ret caller) N) true true true) =
      ⟨⟨some (N + 1), .starting, some N⟩, kp ++ [p], ex ++ [p], N + 1 + 1,
       lg ++ [.signal p .term] ++ [.cleanupEv] ++ [.cleanupEv] ++ [.spawn (N + 1)],
       [.health (.ret caller) N (N + 1)], [], oc⟩ := by
    rw [step_runTask_singleton _ _ _ _ _ rfl]
    rfl
  have e5 : step (⟨⟨some (N + 1), .starting, some N⟩, kp ++ [p], ex ++ [p], N + 1 + 1,
       lg ++ [.signal p .term] ++ [.cleanupEv] ++ [.cleanupEv] ++ [.spawn (N + 1)],
       [.health (.ret caller) N (N + 1)], [], oc⟩ : Sys)
      (.runTask (.health (.ret caller) N (N + 1)) true true true) =
      ⟨⟨some (N + 1), .running, none⟩, kp ++ [p], ex ++ [p], N + 1 + 1,
       lg ++ [.signal p .term] ++ [.cleanupEv] ++ [.cleanupEv] ++ [.spawn (N + 1)],
       [], [], oc ++ [(caller, .result true none)]⟩ := by
    rw [step_runTask_singleton _ _ _ _ _ rfl]
    simp [runPending, resolveStart, recordOutcome, startOutcomeOfRaw]
  have efinal : restartRun caller p spr kp ex N lg oc =
      ⟨⟨some (N + 1), .running, none⟩, kp ++ [p], ex ++ [p], N + 1 + 1,
       lg ++ [.signal p .term] ++ [.cleanupEv] ++ [.cleanupEv] ++ [.spawn (N + 1)],
       [], [], oc ++ [(caller, .result true none)]⟩ := by
    show step (step (step (step (step
        (⟨⟨some p, .running, spr⟩, kp, ex, N, lg, [], [], oc⟩ : Sys)
        (.callRestart caller true true)) (.procExit p))
        (.runTask (.stopGrace (.thenStart caller true) p 500) true false true))
        (.runTask (.preflight (.ret caller) N) true true true))
        (.runTask (.health (.ret caller) N (N + 1)) true true true) = _
    rw [e1, e2, e3, e4, e5]
  refine ⟨by rw [efinal], by rw [efinal], by omega, by rw [efinal], ?_,
    fun _ _ _ _ => rfl⟩
  rw [efinal]
  simp

/-- Witness for C6: the canonical restart on a concrete running instance
(old pid 1, fresh ids from 2). -/
theorem restart_stop_then_start_witness :
    (restartRun 7 1 none [] [] 2 [.spawn 1] []).gm = ⟨some 3, .running, none⟩
  ∧ (restartRun 7 1 none [] [] 2 [.spawn 1] []).outcomes = [(7, .result true none)]
  ∧ (restartRun 7 1 none [] [] 2 [.spawn 1] []).log =
      [.spawn 1] ++ [.signal 1 .term, .cleanupEv, .cleanupEv, .spawn 3] := by
  have h := restart_stop_then_start 7 1 none [] [] 2 [.spawn 1] []
    (by decide) (by decide) (by decide)
  exact ⟨h.1, h.2.2.2.1, h.2.2.2.2.1⟩

/-- Witness for C9 amended: the stop-grace continuation on a stopping
instance transitions into `stopped` with the handle cleared. -/
theorem handle_invariant_amended_witness :
    (step (run sysRunning [.callStop 2 true])
        (.runTask (.stopGrace (.ret 2) 1 500) true false false)).gm.process = none :=
  (handle_invariant_amended (run sysRunning [.callStop 2 true])
      (.runTask (.stopGrace (.ret 2) 1 500) true false false)).1
    (by decide) (by decide)

end OpenClaw
